import Mathlib

/-!
SubTrends core — shallow embedding and verification.

A shallow Lean 4 embedding of the rate-limited, token-cached Reddit/LLM
access core of the repository (files `src/clients/token_cache.py`,
`src/services/rate_limiter.py`, `src/clients/reddit.py`,
`src/services/news_fetcher.py`, `src/services/summarizer.py`,
`src/models/reddit_types.py`), together with theorems settling the
specification claims about that code.

Modelling conventions:
* wall-clock and monotonic timestamps (Python floats) are modelled as
  integers (`Int`), on which all the claimed comparisons are exact;
* the network is modelled as an explicit oracle argument (a function from
  request to response), so call counts and call payloads are data;
* fallible operations return `Except`/`Option`;
* the `model` selection parameters of the summarizer are pass-through
  configuration strings that do not affect any control flow and are omitted.
-/

namespace SubTrends

/-! ## Data model (`src/models/reddit_types.py`) -/

/-- A Reddit comment (`Comment` dataclass). -/
structure Comment where
  body : String
  score : Int
  author : String
deriving DecidableEq, Repr

/-- A Reddit post with its top comments (`Post` dataclass).  Fields follow
the dataclass order; defaulted fields of the dataclass are plain fields
here and are always passed explicitly. -/
structure Post where
  title : String
  url : String
  score : Int
  subreddit : String
  author : String
  selftext : String
  num_comments : Int
  permalink : String
  comments : List Comment
deriving DecidableEq, Repr

/-- Python `str.lower()` as the character-wise ASCII lowering of the
characters of the string (what the lower() call of the source computes). -/
def pyLower (s : String) : String := String.mk (s.data.map Char.toLower)

/-- Python `str.upper()` as the character-wise ASCII uppering of the
characters of the string (what the upper() call of the source computes). -/
def pyUpper (s : String) : String := String.mk (s.data.map Char.toUpper)

/-- Property `Post.full_url`: the canonical Reddit URL when a permalink is
present, otherwise the post url. -/
def Post.full_url (p : Post) : String :=
  if p.permalink ≠ "" then ("https://reddit.com" ++ p.permalink) else p.url

/-- A group of subreddits with their fetched posts (`SubredditGroup`
dataclass; the spec calls it SourceGroup). -/
structure SubredditGroup where
  name : String
  subreddits : List String
  posts : List Post
deriving DecidableEq, Repr

/-! ## Token cache (`src/clients/token_cache.py`) -/

/-- Constant `TOKEN_EXPIRY_BUFFER` = 300 — refresh 5 minutes before actual expiry. -/
def TOKEN_EXPIRY_BUFFER : Int := 300

/-- Cached OAuth token with expiry information (`CachedToken` dataclass). -/
structure CachedToken where
  access_token : String
  expires_at : Int
deriving DecidableEq, Repr

/-- Method `CachedToken.is_valid`: `time.time() < self.expires_at - TOKEN_EXPIRY_BUFFER`.
The current wall-clock reading is the explicit argument `now`. -/
def CachedToken.is_valid (t : CachedToken) (now : Int) : Bool :=
  decide (now < t.expires_at - TOKEN_EXPIRY_BUFFER)

/-- Contents of the token-cache backing file: either well-formed JSON with
both required fields, or anything json.loads/KeyError would reject. -/
inductive FileContents
  | valid (access_token : String) (expires_at : Int)
  | malformed
deriving DecidableEq, Repr

/-- Method `TokenCache.get`: absent file, malformed contents, and invalid token all
yield `none`; a decoded token is returned only when `is_valid` holds. -/
def TokenCache.get (now : Int) (store : Option FileContents) : Option CachedToken :=
  match store with
  | none => none
  | some FileContents.malformed => none
  | some (FileContents.valid tok exp) =>
      if (CachedToken.mk tok exp).is_valid now then some (CachedToken.mk tok exp) else none

/-- Outcome of the file write attempted by `TokenCache.set`.  `aiofiles.open`
with mode "w" truncates the file as it opens, so a failure raised by the
open itself (`openFail`) leaves the file untouched, while a failure raised
by the subsequent write (`writeFail`) leaves a truncated (hence malformed)
file behind. -/
inductive WriteOutcome
  | ok
  | openFail
  | writeFail
deriving DecidableEq, Repr

/-- Result of `TokenCache.set`: the new store contents, whether an exception
escaped the method, and whether an error log record was emitted. -/
structure SetResult where
  store : Option FileContents
  raised : Bool
  logged_error : Bool
deriving DecidableEq, Repr

/-- Method `TokenCache.set`: computes `expires_at = time.time() + expires_in`,
overwrites the backing file, and catches any `OSError`, logging it instead
of raising. -/
def TokenCache.set (now : Int) (store : Option FileContents) (access_token : String)
    (expires_in : Int) (w : WriteOutcome) : SetResult :=
  match w with
  | WriteOutcome.ok => SetResult.mk (some (FileContents.valid access_token (now + expires_in))) false false
  | WriteOutcome.openFail => SetResult.mk store false true
  | WriteOutcome.writeFail => SetResult.mk (some FileContents.malformed) false true

/-! ### Lock discipline of the token cache (claim C2)

Each cache operation is abstracted to its trace of lock and backing-store
events, read off the method bodies:

* `get` (lines 37-64): the whole body, including the `path.exists()` check
  and the file read, sits inside `async with self._lock`;
* `set` (lines 66-79): the file write sits inside `async with self._lock`;
* `clear` (lines 81-86): the `path.exists()` check and `path.unlink()` are
  NOT guarded by any lock.
-/

/-- One observable event of a token-cache operation. -/
inductive CacheEvent
  | lockAcquire
  | lockRelease
  | storeRead
  | storeWrite
  | storeDelete
deriving DecidableEq, Repr

/-- Predicate `storeAccessesUnderLock d tr` is true when every backing-store event in
trace `tr` happens at positive lock depth, starting from depth `d`. -/
def storeAccessesUnderLock : Nat → List CacheEvent → Bool
  | _, [] => true
  | d, CacheEvent.lockAcquire :: es => storeAccessesUnderLock (d + 1) es
  | d, CacheEvent.lockRelease :: es => storeAccessesUnderLock (d - 1) es
  | d, _ :: es => decide (0 < d) && storeAccessesUnderLock d es

/-- Event trace of `TokenCache.get` (`fileExists` selects the branch taken
by the `path.exists()` check). -/
def getTrace (fileExists : Bool) : List CacheEvent :=
  if fileExists then
    [CacheEvent.lockAcquire, CacheEvent.storeRead, CacheEvent.storeRead, CacheEvent.lockRelease]
  else
    [CacheEvent.lockAcquire, CacheEvent.storeRead, CacheEvent.lockRelease]

/-- Event trace of `TokenCache.set`. -/
def setTrace : List CacheEvent :=
  [CacheEvent.lockAcquire, CacheEvent.storeWrite, CacheEvent.lockRelease]

/-- Event trace of `TokenCache.clear` — no lock events occur in the method
body (`fileExists` selects the branch of the `path.exists()` check). -/
def clearTrace (fileExists : Bool) : List CacheEvent :=
  if fileExists then [CacheEvent.storeRead, CacheEvent.storeDelete]
  else [CacheEvent.storeRead]

/-! ## Rate limiter (`src/services/rate_limiter.py`)

`RateLimiter` keeps `request_times : deque[float]` with
`maxlen = requests_per_minute`, oldest first.  `_wait_for_rate_limit` runs
under the limiter lock: if the deque is full it computes the sliding-window
wait from the oldest timestamp, sleeps for it, and then appends a fresh
`time.monotonic()` reading.  We model a single call by the pure pair
(wait duration, new deque), with `now` the monotonic reading taken at entry
and `now + wait` the reading appended after the sleep. -/

/-- Bounded-deque append: a deque with maxlen `cap` keeps the `cap` most recent
elements, evicting from the front. -/
def dappend (cap : Nat) (q : List Int) (x : Int) : List Int :=
  (q ++ [x]).drop (q.length + 1 - cap)

/-- The sleep duration computed by `_wait_for_rate_limit` when called with
deque `q` at monotonic time `now` (`rpm` is `requests_per_minute`).
When the deque is full and the oldest entry is less than 60 seconds old the
code waits `60 - (now - oldest)`; otherwise it does not sleep.  (The
`[]`-with-full-window case is unreachable for `rpm ≥ 1`, which the claims
assume; Python would raise `IndexError` there.) -/
def waitTime (rpm : Nat) (q : List Int) (now : Int) : Int :=
  if rpm ≤ q.length then
    match q with
    | [] => 0
    | oldest :: _ => if now - oldest < 60 then 60 - (now - oldest) else 0
  else 0

/-- One full `_wait_for_rate_limit` call: returns the wait duration and the
deque after appending the post-sleep `time.monotonic()` reading. -/
def rlStep (rpm : Nat) (q : List Int) (now : Int) : Int × List Int :=
  (waitTime rpm q now, dappend rpm q (now + waitTime rpm q now))

/-- The deque produced by a sequence of `acquire()` calls entered at the
given monotonic times, starting from the empty deque of a fresh limiter. -/
def runAcquires (rpm : Nat) (times : List Int) : List Int :=
  times.foldl (fun q now => (rlStep rpm q now).2) []

/-! ## Content API client parsing (`src/clients/reddit.py`, lines 196-221)

`fetch_top_posts` iterates over `data["data"]["children"]`, reading every
field of each child with `dict.get` and a per-field default, and skips a
child only when its `created_utc` (default 0) is older than 24 hours.
The HTTP layer is abstracted away: the parsing loop is embedded as a
function of the decoded `children` array and of the wall-clock time `now`
at which the cutoff `datetime.now - timedelta(hours = 24)` is taken. -/

/-- The fields that `fetch_top_posts` reads from the `data` object of a
child; each is
optional, mirroring `dict.get` on arbitrary JSON. -/
structure RawPostData where
  title : Option String
  url : Option String
  score : Option Int
  subreddit : Option String
  author : Option String
  selftext : Option String
  num_comments : Option Int
  permalink : Option String
  created_utc : Option Int
deriving DecidableEq, Repr

/-- A child of the `children` array of the listing; `data = none` models a child
object without a `"data"` member (`child.get("data", \x7b\x7d)`). -/
structure RawChild where
  data : Option RawPostData
deriving DecidableEq, Repr

/-- The empty dict used as default for a missing `"data"` member. -/
def emptyRawPostData : RawPostData :=
  RawPostData.mk none none none none none none none none none

/-- The body of the parsing loop of `fetch_top_posts` for one child:
`none` when the child is dropped by the 24-hour filter, otherwise the
constructed `Post` with per-field defaults. -/
def parseChild (now : Int) (sub : String) (child : RawChild) : Option Post :=
  let pd := child.data.getD emptyRawPostData
  if pd.created_utc.getD 0 < now - 86400 then none
  else some (Post.mk (pd.title.getD ("")) (pd.url.getD ("")) (pd.score.getD 0)
    (pd.subreddit.getD sub) (pd.author.getD ("[deleted]")) (pd.selftext.getD (""))
    (pd.num_comments.getD 0) (pd.permalink.getD ("")) [])

/-- The parsing loop of `fetch_top_posts` over the whole `children` array. -/
def fetch_top_posts (now : Int) (sub : String) (children : List RawChild) : List Post :=
  children.filterMap (parseChild now sub)

/-- Spec-side predicate (C3): a list item of "unexpected JSON shape" or with
a "missing required field" — the child lacks its `data` object, or the data
object lacks one of the fields the spec data model makes mandatory for a
Post (title, url, score, source, author). -/
def specMissingRequiredField (c : RawChild) : Bool :=
  match c.data with
  | none => true
  | some pd =>
      pd.title.isNone || pd.url.isNone || pd.score.isNone ||
      pd.subreddit.isNone || pd.author.isNone

/-! ## Fetch orchestrator (`src/services/news_fetcher.py`) -/

/-- Typed error raised by `fetch_group` (a `ValueError` in the source). -/
inductive FetchError
  | unknownGroup (message : String)
deriving DecidableEq, Repr

/-- The message of the unknown-group error:
an f-string interpolating the requested name (in single quotes) and
with `available = ", ".join(self.subreddit_groups.keys())`. -/
def unknownGroupMessage (group_name : String) (groups : List (String × List String)) : String :=
  "Unknown group \x27" ++ group_name ++ "\x27. Available groups: " ++
    String.intercalate (", ") (groups.map Prod.fst)

/-- Stable insertion into a score-descending list: the new element is placed
before the first element whose score does not exceed it. -/
def insertDesc (p : Post) : List Post → List Post
  | [] => [p]
  | q :: qs => if q.score ≤ p.score then p :: q :: qs else q :: insertDesc p qs

/-- Stable score-descending sort.  `all_posts.sort(key = lambda p: p.score,
reverse = True)` is the stable Timsort of Python run descending on the score;
any stable descending sort is extensionally the same function, and this
insertion sort is one. -/
def sortDesc : List Post → List Post
  | [] => []
  | p :: ps => insertDesc p (sortDesc ps)

/-- The concatenation, in subreddit order, of the successful per-subreddit
fetch results (`asyncio.gather(..., return_exceptions = True)` followed by
the loop that skips `BaseException` results and extends `all_posts`).
`f s` is the outcome of `fetch_posts_with_comments` for subreddit `s`:
`Except.error` models a raised exception. -/
def collectPosts (f : String → Except String (List Post)) : List String → List Post
  | [] => []
  | s :: rest =>
      (match f s with
       | Except.error _ => []
       | Except.ok ps => ps) ++ collectPosts f rest

/-- Method `NewsFetcher.fetch_group`: case-insensitive lookup of the group name in
the configured table (an insertion-ordered association list, like a Python
dict), unknown-group error otherwise, then per-subreddit fetch with
failure isolation and a final stable score-descending sort. -/
def fetch_group (groups : List (String × List String))
    (f : String → Except String (List Post)) (group_name : String) :
    Except FetchError SubredditGroup :=
  match List.find? (fun kv => kv.1 == pyLower group_name) groups with
  | none => Except.error (FetchError.unknownGroup (unknownGroupMessage group_name groups))
  | some kv => Except.ok (SubredditGroup.mk (pyLower group_name) kv.2 (sortDesc (collectPosts f kv.2)))

/-! ## Summary orchestrator (`src/services/summarizer.py`)

The generative API (`AnthropicClient.generate`) is modelled as an oracle
`gen : GenCall → String`; every operation returns, next to its string
result, the list of remote generate calls it performed, so call counts are
data of the embedding. -/

/-- One remote call to `AnthropicClient.generate` (prompt and system
persona instruction; the pass-through `model` string is omitted). -/
structure GenCall where
  prompt : String
  system : String
deriving DecidableEq, Repr

/-- Constant `SUMMARIZER_SYSTEM` persona instruction (verbatim). -/
def SUMMARIZER_SYSTEM : String :=
  "You are a witty news summarizer with a dry sense of humor.\n" ++
  "Given Reddit posts and their top comments, create a concise, informative summary that:\n\n" ++
  "1. Highlights the most significant news stories\n" ++
  "2. Incorporates insights from top comments when they add valuable context\n" ++
  "3. Groups related stories together when appropriate\n" ++
  "4. Uses clear, journalistic language with occasional subtle humor or witty observations\n" ++
  "5. Maintains objectivity while noting community sentiment when relevant\n" ++
  "6. Adds a touch of irony or clever commentary where appropriate\n" ++
  "   (but don\x27t overdo it - one or two witty remarks per story max)\n\n" ++
  "Format: Use PLAIN TEXT with ASCII formatting (no markdown). For each major story:\n" ++
  "- Use UPPERCASE for main headers, followed by a line of === underneath\n" ++
  "- Use bullet points with • or - for lists\n" ++
  "- Use *asterisks* for emphasis instead of bold\n" ++
  "- Keep total length under 1500 words\n\n" ++
  "Focus on the substance and key developments, not on Reddit-specific details.\n" ++
  "Let your personality shine through occasionally."

/-- Constant `TRANSLATOR_SYSTEM` persona instruction (verbatim). -/
def TRANSLATOR_SYSTEM : String :=
  "You are a professional Ukrainian translator specializing in news content.\n" ++
  "Translate the following text to Ukrainian:\n\n" ++
  "1. Maintain journalistic tone and style\n" ++
  "2. Use standard Ukrainian (literary language, not Surzhyk)\n" ++
  "3. Preserve ASCII formatting exactly (UPPERCASE headers, === lines, • bullets, *emphasis*)\n" ++
  "4. Transliterate proper nouns appropriately (use Ukrainian conventions)\n" ++
  "5. Keep the same structure and emphasis as the original\n" ++
  "6. For technical terms, use commonly accepted Ukrainian equivalents\n\n" ++
  "Provide only the translation, no explanations or notes."

/-- Constant `MAX_CONTENT_LENGTH` = 100000 — max chars to send to the API. -/
def MAX_CONTENT_LENGTH : Nat := 100000

/-- Python `s[:cap]` followed by appending `"..."` when the original length
exceeds `cap` (used for selftext with cap 1000 and comments with cap 500). -/
def truncAt (cap : Nat) (s : String) : String :=
  if s.length > cap then s.take cap ++ "..." else s

/-- One line of the Top Comments block:
`f"\x7bj\x7d. [\x7bcomment.score\x7d points] \x7bbody\x7d\n"`. -/
def commentLine (j : Nat) (c : Comment) : String :=
  toString j ++ ". [" ++ toString c.score ++ " points] " ++ truncAt 500 c.body ++ "\n"

/-- Loop `enumerate(post.comments, 1)` over the comment lines. -/
def commentLines : Nat → List Comment → String
  | _, [] => ""
  | j, c :: cs => commentLine j c ++ commentLines (j + 1) cs

/-- The per-post section assembled by `_build_summary_prompt`. -/
def postSection (i : Nat) (p : Post) : String :=
  let base := "## Post " ++ toString i ++ ": " ++ p.title ++ "\n" ++
    "**Subreddit:** r/" ++ p.subreddit ++ " | **Score:** " ++ toString p.score ++ "\n\n"
  let withText := if p.selftext ≠ "" ∧ p.selftext.trim ≠ "" then
      base ++ "**Content:**\n" ++ truncAt 1000 p.selftext ++ "\n\n"
    else base
  if p.comments ≠ [] then withText ++ "**Top Comments:**\n" ++ commentLines 1 p.comments
  else withText

/-- Loop `enumerate(posts, 1)` over the post sections. -/
def postSections : Nat → List Post → List String
  | _, [] => []
  | i, p :: ps => postSection i p :: postSections (i + 1) ps

/-- Method `Summarizer._build_summary_prompt`: joins the sections with
`"\n---\n\n"`, truncates the joined content at `MAX_CONTENT_LENGTH` with a
marker, and prefixes the instruction line with the uppercased group name. -/
def build_summary_prompt (group_name : String) (posts : List Post) : String :=
  let content := String.intercalate ("\n---\n\n") (postSections 1 posts)
  let content := if content.length > MAX_CONTENT_LENGTH then
      content.take MAX_CONTENT_LENGTH ++ "\n\n[Content truncated due to length]"
    else content
  "Summarize the following Reddit posts from the \x27" ++ pyUpper group_name ++
    "\x27 news group. These are the top posts and comments from the last 24 hours:\n\n" ++ content

/-- The fixed message returned by `Summarizer.summarize` for an empty post
list (an f-string interpolating the group name between single quotes). -/
def emptyGroupMessage (group_name : String) : String :=
  "No posts found for group \x27" ++ group_name ++ "\x27 in the last 24 hours."

/-- Method `Summarizer.summarize`: short-circuits on an empty post list, otherwise
performs one generate call with the summarizer persona. -/
def Summarizer.summarize (gen : GenCall → String) (group_name : String)
    (posts : List Post) : String × List GenCall :=
  if posts.isEmpty then (emptyGroupMessage group_name, [])
  else
    let call := GenCall.mk (build_summary_prompt group_name posts) SUMMARIZER_SYSTEM
    (gen call, [call])

/-- Method `Summarizer.translate_to_ukrainian`: returns `""` for empty input
without any remote call, otherwise performs one generate call with the
translator persona. -/
def Summarizer.translate_to_ukrainian (gen : GenCall → String) (text : String) :
    String × List GenCall :=
  if text = "" then ("", [])
  else
    let call := GenCall.mk ("Translate this news summary to Ukrainian:\n\n" ++ text) TRANSLATOR_SYSTEM
    (gen call, [call])

/-- The SOURCES section appended by `summarize_and_translate` when `posts`
is non-empty. -/
def urlsSection (posts : List Post) : String :=
  "\n\n════════════════════════════════════════\n" ++
  "SOURCES / ДЖЕРЕЛА\n" ++
  "════════════════════════════════════════\n\n" ++
  String.join (posts.map (fun p =>
    let title := if p.title.length > 60 then p.title.take 60 ++ "..." else p.title
    "• " ++ title ++ "\n  " ++ p.full_url ++ "\n\n"))

/-- Method `Summarizer.summarize_and_translate`: summarize, translate the summary,
and append the sources section when `posts` is non-empty.  The second
component is the list of remote generate calls performed, in order. -/
def Summarizer.summarize_and_translate (gen : GenCall → String) (group_name : String)
    (posts : List Post) : String × List GenCall :=
  let s := Summarizer.summarize gen group_name posts
  let t := Summarizer.translate_to_ukrainian gen s.1
  (if posts.isEmpty then t.1 else t.1 ++ urlsSection posts, s.2 ++ t.2)

/-! ## Concrete instances used by witnesses and counterexamples -/

/-- A post of score 100 from subreddit "a". -/
def postA : Post :=
  Post.mk ("Post from a") ("https://a.example.com") 100 ("a") ("user") ("") 0 ("") []

/-- A post of score 500 from subreddit "c". -/
def postC : Post :=
  Post.mk ("Post from c") ("https://c.example.com") 500 ("c") ("user") ("") 0 ("") []

/-- Group table with one group "world" of three subreddits. -/
def wGroups : List (String × List String) := [("world", ["a", "b", "c"])]

/-- Fetch outcomes where subreddit "b" raises and the others succeed. -/
def wFetch : String → Except String (List Post) := fun s =>
  if s == "b" then Except.error ("Network error")
  else if s == "a" then Except.ok [postA]
  else Except.ok [postC]

/-- The group value `fetch_group wGroups wFetch "WORLD"` produces. -/
def wResult : SubredditGroup :=
  SubredditGroup.mk ("world") ["a", "b", "c"] [postC, postA]

/-- A listing child whose data object carries only a fresh `created_utc`;
every field the spec data model requires for a Post is missing. -/
def rawNoTitle : RawChild :=
  RawChild.mk (some (RawPostData.mk none none none none none none none none (some 100000)))

/-! ## Helper lemmas -/

/-- The fixed empty-group message is never the empty string. -/
theorem emptyGroupMessage_ne_empty (g : String) : emptyGroupMessage g ≠ "" := by
  intro h
  have h2 := congrArg String.length h
  simp [emptyGroupMessage, String.length_append] at h2
  exact absurd h2.1.1 (by decide)

/-- Membership in a stable descending insertion. -/
theorem mem_insertDesc {a p : Post} {l : List Post} :
    a ∈ insertDesc p l ↔ a = p ∨ a ∈ l := by
  induction l with
  | nil => simp [insertDesc]
  | cons q qs ih =>
      by_cases h : q.score ≤ p.score
      · simp [insertDesc, h, List.mem_cons]
      · simp [insertDesc, h, List.mem_cons, ih]
        tauto

/-- Stable descending insertion preserves score-descending sortedness. -/
theorem pairwise_insertDesc {p : Post} {l : List Post}
    (hl : l.Pairwise (fun a b => b.score ≤ a.score)) :
    (insertDesc p l).Pairwise (fun a b => b.score ≤ a.score) := by
  induction l with
  | nil => simp [insertDesc]
  | cons q qs ih =>
      rcases List.pairwise_cons.mp hl with ⟨hq, hqs⟩
      by_cases h : q.score ≤ p.score
      · rw [insertDesc, if_pos h]
        refine List.pairwise_cons.mpr ⟨?_, hl⟩
        intro b hb
        rcases List.mem_cons.mp hb with rfl | hb
        · exact h
        · exact le_trans (hq b hb) h
      · rw [insertDesc, if_neg h]
        refine List.pairwise_cons.mpr ⟨?_, ih hqs⟩
        intro b hb
        rcases mem_insertDesc.mp hb with rfl | hb
        · omega
        · exact hq b hb

/-- Filtering one score class commutes with stable descending insertion. -/
theorem filter_insertDesc (p : Post) (l : List Post) (s : Int) :
    (insertDesc p l).filter (fun x => x.score == s) =
      if p.score == s then p :: l.filter (fun x => x.score == s)
      else l.filter (fun x => x.score == s) := by
  induction l with
  | nil => by_cases hp : p.score == s <;> simp [insertDesc, List.filter, hp]
  | cons q qs ih =>
      by_cases h : q.score ≤ p.score
      · rw [insertDesc, if_pos h]
        by_cases hp : p.score == s <;> simp [List.filter_cons, hp]
      · rw [insertDesc, if_neg h]
        by_cases hq : q.score == s
        · have hps : ¬ (p.score == s) = true := by
            rw [beq_iff_eq] at hq ⊢
            omega
          simp only [List.filter_cons, hq, ih, hps]
          simp [hps]
        · simp only [List.filter_cons, hq, ih]
          simp

/-- Membership in the stable descending sort. -/
theorem mem_sortDesc {a : Post} {l : List Post} : a ∈ sortDesc l ↔ a ∈ l := by
  induction l with
  | nil => simp [sortDesc]
  | cons p ps ih => simp [sortDesc, mem_insertDesc, ih]

/-- The stable descending sort is score-descending. -/
theorem pairwise_sortDesc (l : List Post) :
    (sortDesc l).Pairwise (fun a b => b.score ≤ a.score) := by
  induction l with
  | nil => simp [sortDesc]
  | cons p ps ih => exact pairwise_insertDesc ih

/-- Stability of the descending sort: each score class keeps its input
order. -/
theorem filter_sortDesc (l : List Post) (s : Int) :
    (sortDesc l).filter (fun x => x.score == s) = l.filter (fun x => x.score == s) := by
  induction l with
  | nil => rfl
  | cons p ps ih =>
      rw [sortDesc, filter_insertDesc, ih]
      by_cases hp : p.score == s <;> simp [List.filter_cons, hp]

/-- A post is collected exactly when some subreddit fetch succeeded with a
list containing it. -/
theorem mem_collectPosts {p : Post} {f : String → Except String (List Post)}
    {subs : List String} :
    p ∈ collectPosts f subs ↔ ∃ s ∈ subs, ∃ ps, f s = Except.ok ps ∧ p ∈ ps := by
  induction subs with
  | nil => simp [collectPosts]
  | cons s rest ih =>
      rw [collectPosts]
      cases hfs : f s with
      | error e => simp [ih, hfs]
      | ok ps => simp [ih, hfs]

/-- Length of a bounded-deque append. -/
theorem length_dappend (cap : Nat) (q : List Int) (x : Int) :
    (dappend cap q x).length = min (q.length + 1) cap := by
  simp [dappend]
  omega

/-- Folding rate-limiter steps preserves the deque bound. -/
theorem length_foldl_rlStep (rpm : Nat) (ts : List Int) :
    ∀ q : List Int, q.length ≤ rpm →
      (ts.foldl (fun q now => (rlStep rpm q now).2) q).length ≤ rpm := by
  induction ts with
  | nil => intro q h; simpa using h
  | cons t ts ih =>
      intro q h
      rw [List.foldl_cons]
      apply ih
      simp only [rlStep, length_dappend]
      omega

/-- Lookup `find?` misses every pair whose key differs from the searched key. -/
theorem find?_eq_none_of_not_mem_keys (l : List (String × List String)) (key : String)
    (h : key ∉ l.map Prod.fst) :
    List.find? (fun kv => kv.1 == key) l = none := by
  rw [List.find?_eq_none]
  intro kv hkv
  simp only [beq_iff_eq]
  intro hkey
  exact h (hkey ▸ List.mem_map_of_mem Prod.fst hkv)

/-! ## Claim theorems -/

/-- C4: for every token T and time now, `is_valid` holds iff
`now < T.expires_at − buffer` with buffer 300; a token with
`expires_at = now + buffer − 1` is invalid and one with
`expires_at = now + buffer + 1` is valid. -/
theorem c4_token_validity (now : Int) (t : CachedToken) :
    (t.is_valid now = true ↔ now < t.expires_at - TOKEN_EXPIRY_BUFFER)
    ∧ (t.expires_at = now + TOKEN_EXPIRY_BUFFER - 1 → t.is_valid now = false)
    ∧ (t.expires_at = now + TOKEN_EXPIRY_BUFFER + 1 → t.is_valid now = true) := by
  refine ⟨by simp [CachedToken.is_valid], ?_, ?_⟩
  · intro h
    simp only [CachedToken.is_valid, h, TOKEN_EXPIRY_BUFFER, decide_eq_false_iff_not]
    omega
  · intro h
    simp only [CachedToken.is_valid, h, TOKEN_EXPIRY_BUFFER, decide_eq_true_eq]
    omega

/-- Witness for C4 at now = 0: expiry 299 is invalid, expiry 301 is valid. -/
theorem c4_token_validity_witness :
    (CachedToken.mk ("a") 299).is_valid 0 = false
    ∧ (CachedToken.mk ("a") 301).is_valid 0 = true :=
  ⟨(c4_token_validity 0 (CachedToken.mk ("a") 299)).2.1 (by decide),
   (c4_token_validity 0 (CachedToken.mk ("a") 301)).2.2 (by decide)⟩

/-- C5: with the timestamp FIFO full (capacity N, oldest entry t₁), the
computed suspension is `60 − (now − t₁)` when positive and zero otherwise,
and the acquire does not return before `t₁ + 60`, i.e. before
`60 − (now − t₁)` further seconds elapse. -/
theorem c5_rate_window (rpm : Nat) (q rest : List Int) (now t₁ : Int)
    (hq : q = t₁ :: rest) (hlen : q.length = rpm) :
    waitTime rpm q now = max 0 (60 - (now - t₁))
    ∧ t₁ + 60 ≤ now + waitTime rpm q now := by
  subst hq
  have hcap : rpm ≤ (t₁ :: rest).length := le_of_eq hlen.symm
  constructor
  · simp only [waitTime, if_pos hcap]
    by_cases h : now - t₁ < 60
    · rw [if_pos h, max_eq_right (by omega : (0:Int) ≤ 60 - (now - t₁))]
    · rw [if_neg h, max_eq_left (by omega : 60 - (now - t₁) ≤ (0:Int))]
  · simp only [waitTime, if_pos hcap]
    by_cases h : now - t₁ < 60
    · rw [if_pos h]; omega
    · rw [if_neg h]; omega

/-- Witness for C5: capacity 3, FIFO [0,0,0], call at time 10 waits 50 and
returns at time 60. -/
theorem c5_rate_window_witness :
    waitTime 3 [0, 0, 0] 10 = max 0 (60 - (10 - 0))
    ∧ (0 : Int) + 60 ≤ 10 + waitTime 3 [0, 0, 0] 10 :=
  c5_rate_window 3 [0, 0, 0] [0, 0] 10 0 rfl rfl

/-- C9: across any sequence of acquires the timestamp FIFO never holds more
than `requests_per_minute` entries, and an append onto a full FIFO evicts
the oldest entry. -/
theorem c9_fifo_bound (rpm : Nat) (times : List Int) :
    (runAcquires rpm times).length ≤ rpm
    ∧ ∀ (q : List Int) (now : Int), 0 < rpm → q.length = rpm →
        (rlStep rpm q now).2 = q.tail ++ [now + waitTime rpm q now] := by
  constructor
  · exact length_foldl_rlStep rpm times [] (by simp)
  · intro q now hpos hlen
    rcases q with _ | ⟨a, as⟩
    · simp at hlen; omega
    · simp only [rlStep, dappend]
      have h1 : (a :: as).length + 1 - rpm = 1 := by
        simp at hlen ⊢; omega
      rw [h1]
      simp

/-- Witness for C9: capacity 2 never exceeded over three acquires, and a
full FIFO [5, 6] evicts 5 on the next acquire. -/
theorem c9_fifo_bound_witness :
    (runAcquires 2 [1, 2, 3]).length ≤ 2
    ∧ (rlStep 2 [5, 6] 70).2 = [6] ++ [70 + waitTime 2 [5, 6] 70] :=
  ⟨(c9_fifo_bound 2 [1, 2, 3]).1,
   (c9_fifo_bound 2 []).2 [5, 6] 70 (by decide) (by decide)⟩

/-- C2 counterexample: the store accesses of `TokenCache.clear` (the
`path.exists()` check and the `unlink`) happen with the instance lock not
held, refuting the claim that every cache operation accesses the store only
under the lock. -/
theorem c2_counterexample : storeAccessesUnderLock 0 (clearTrace true) = false := by decide

/-- C2 (amended): `get` and `set` perform every backing-store access while
holding the instance lock, but `clear` performs all of its store accesses
with the lock not held (in either branch of its existence check), so clear
can interleave with a concurrent get or set. -/
theorem c2_amended_lock_discipline :
    (∀ fe : Bool, storeAccessesUnderLock 0 (getTrace fe) = true)
    ∧ storeAccessesUnderLock 0 setTrace = true
    ∧ (∀ fe : Bool, storeAccessesUnderLock 0 (clearTrace fe) = false) :=
  ⟨fun fe => by cases fe <;> decide, by decide, fun fe => by cases fe <;> decide⟩

/-- C10 counterexample: an OS error raised by the write after the
truncating open leaves the backing store truncated, not with its prior
contents. -/
theorem c10_counterexample :
    (TokenCache.set 0 (some (FileContents.valid ("old") 1000)) ("new") 3600
        WriteOutcome.writeFail).store
      ≠ some (FileContents.valid ("old") 1000) := by decide

/-- C10 (amended): `set` never raises — OS errors are caught and logged.
If the error occurs while opening the file the prior contents are
unchanged (so a later get can still return the previously stored token);
but if it occurs during the write after the truncating open, the file is
left malformed and every later get returns absent. -/
theorem c10_amended_set_no_raise (now : Int) (store : Option FileContents)
    (tok : String) (expires_in : Int) (w : WriteOutcome) :
    (TokenCache.set now store tok expires_in w).raised = false
    ∧ (w = WriteOutcome.ok →
        (TokenCache.set now store tok expires_in w).store
          = some (FileContents.valid tok (now + expires_in)))
    ∧ (w = WriteOutcome.openFail →
        (TokenCache.set now store tok expires_in w).store = store
        ∧ (TokenCache.set now store tok expires_in w).logged_error = true)
    ∧ (w = WriteOutcome.writeFail →
        (TokenCache.set now store tok expires_in w).store = some FileContents.malformed
        ∧ (TokenCache.set now store tok expires_in w).logged_error = true
        ∧ ∀ now2 : Int,
            TokenCache.get now2 (TokenCache.set now store tok expires_in w).store = none) := by
  cases w <;> simp [TokenCache.set, TokenCache.get]

/-- Witness for C10 (amended) at the open-failure case: nothing raised and
the prior contents survive. -/
theorem c10_amended_set_no_raise_witness :
    (TokenCache.set 0 (some (FileContents.valid ("old") 1000)) ("new") 3600
        WriteOutcome.openFail).raised = false
    ∧ (TokenCache.set 0 (some (FileContents.valid ("old") 1000)) ("new") 3600
        WriteOutcome.openFail).store = some (FileContents.valid ("old") 1000) :=
  ⟨(c10_amended_set_no_raise 0 (some (FileContents.valid ("old") 1000)) ("new") 3600
      WriteOutcome.openFail).1,
   ((c10_amended_set_no_raise 0 (some (FileContents.valid ("old") 1000)) ("new") 3600
      WriteOutcome.openFail).2.2.1 rfl).1⟩

/-- C1 counterexample: with an empty post list and group "tech", the
summarizer pass is skipped but the translator pass still performs one
remote generate call (on the non-empty fixed message), and the returned
string is the translator output, not the fixed empty-group message. -/
theorem c1_counterexample :
    (Summarizer.summarize_and_translate (fun _ => "TRANSLATED") ("tech") []).2.length = 1
    ∧ (Summarizer.summarize_and_translate (fun _ => "TRANSLATED") ("tech") []).1
        = "TRANSLATED" := by
  constructor <;> rfl

/-- C1 (amended): for every group name and oracle, `summarize` with an
empty post list short-circuits to the fixed message with zero remote
calls, but `summarize_and_translate` then feeds that non-empty message to
the translator pass, performing exactly one remote generate call (with the
translator persona) and returning the output of that call with no sources
section appended. -/
theorem c1_amended_empty_posts (gen : GenCall → String) (g : String) :
    Summarizer.summarize gen g [] = (emptyGroupMessage g, [])
    ∧ (Summarizer.summarize_and_translate gen g []).2
        = [GenCall.mk ("Translate this news summary to Ukrainian:\n\n" ++ emptyGroupMessage g)
            TRANSLATOR_SYSTEM]
    ∧ (Summarizer.summarize_and_translate gen g []).1
        = gen (GenCall.mk ("Translate this news summary to Ukrainian:\n\n" ++ emptyGroupMessage g)
            TRANSLATOR_SYSTEM) := by
  have hne : emptyGroupMessage g ≠ "" := emptyGroupMessage_ne_empty g
  refine ⟨?_, ?_, ?_⟩ <;>
    simp [Summarizer.summarize, Summarizer.summarize_and_translate,
      Summarizer.translate_to_ukrainian, hne]

/-- C3 counterexample: a child whose data object misses every required
field of the Post data model but carries a fresh `created_utc` is NOT
skipped — it is parsed into a Post made of per-field defaults. -/
theorem c3_counterexample :
    specMissingRequiredField rawNoTitle = true
    ∧ fetch_top_posts 100000 ("news") [rawNoTitle]
        = [Post.mk ("") ("") 0 ("news") ("[deleted]") ("") 0 ("") []] := by
  constructor <;> rfl

/-- C3 (amended): the listing parse never skips a child for unexpected
shape or missing fields — every field is defaulted — and the
inclusion of each child is independent of its siblings; a child is skipped exactly when
its `created_utc` (0 when the field or the whole data object is missing)
is older than 24 hours before the fetch time. -/
theorem c3_amended_parse_policy (now : Int) (sub : String) (c : RawChild)
    (l₁ l₂ : List RawChild) :
    fetch_top_posts now sub (l₁ ++ c :: l₂)
      = fetch_top_posts now sub l₁ ++ (parseChild now sub c).toList
          ++ fetch_top_posts now sub l₂
    ∧ (parseChild now sub c = none
        ↔ (c.data.getD emptyRawPostData).created_utc.getD 0 < now - 86400) := by
  constructor
  · cases hc : parseChild now sub c <;>
      simp [fetch_top_posts, List.filterMap_append, List.filterMap_cons, hc]
  · by_cases h : (c.data.getD emptyRawPostData).created_utc.getD 0 < now - 86400 <;>
      simp [parseChild, h]

/-- C6: whenever the (case-insensitive) group lookup succeeds,
`fetch_group` returns normally — no exception from a fetch of a member
subreddit aborts it — and every post of the returned group comes from a
subreddit whose fetch succeeded. -/
theorem c6_partial_tolerance (groups : List (String × List String))
    (f : String → Except String (List Post)) (name : String) (kv : String × List String)
    (h : List.find? (fun x => x.1 == pyLower name) groups = some kv) :
    ∃ g : SubredditGroup, fetch_group groups f name = Except.ok g
      ∧ ∀ p ∈ g.posts, ∃ s ∈ kv.2, ∃ ps, f s = Except.ok ps ∧ p ∈ ps := by
  refine ⟨SubredditGroup.mk (pyLower name) kv.2 (sortDesc (collectPosts f kv.2)), ?_, ?_⟩
  · unfold fetch_group
    rw [h]
  · intro p hp
    exact mem_collectPosts.mp (mem_sortDesc.mp hp)

/-- Witness for C6 (also the mixed-case E2E scenario): group "world" looked
up as "WORLD", subreddit "b" of three raises, the result holds only posts
of the two surviving subreddits. -/
theorem c6_partial_tolerance_witness :
    ∃ g : SubredditGroup, fetch_group wGroups wFetch ("WORLD") = Except.ok g
      ∧ ∀ p ∈ g.posts, ∃ s ∈ ["a", "b", "c"], ∃ ps, wFetch s = Except.ok ps ∧ p ∈ ps :=
  c6_partial_tolerance wGroups wFetch ("WORLD") ("world", ["a", "b", "c"]) (by rfl)

/-- C7: every group returned by `fetch_group` has its posts sorted by
non-increasing score, and within each score class the posts keep the
deterministic subreddit-fetch concatenation order (stability). -/
theorem c7_score_ordering (groups : List (String × List String))
    (f : String → Except String (List Post)) (name : String) (g : SubredditGroup)
    (h : fetch_group groups f name = Except.ok g) :
    g.posts.Pairwise (fun a b => b.score ≤ a.score)
    ∧ ∀ s : Int, g.posts.filter (fun p => p.score == s)
        = (collectPosts f g.subreddits).filter (fun p => p.score == s) := by
  unfold fetch_group at h
  cases hfind : List.find? (fun kv => kv.1 == pyLower name) groups with
  | none =>
      rw [hfind] at h
      exact absurd h (by simp)
  | some kv =>
      rw [hfind] at h
      have hg : SubredditGroup.mk (pyLower name) kv.2 (sortDesc (collectPosts f kv.2)) = g :=
        Except.ok.inj h
      subst hg
      exact ⟨pairwise_sortDesc _, fun s => filter_sortDesc _ s⟩

/-- Witness for C7 on the concrete partially-failing fetch: the result
[500, 100] is descending and score-class stable. -/
theorem c7_score_ordering_witness :
    wResult.posts.Pairwise (fun a b => b.score ≤ a.score)
    ∧ ∀ s : Int, wResult.posts.filter (fun p => p.score == s)
        = (collectPosts wFetch wResult.subreddits).filter (fun p => p.score == s) :=
  c7_score_ordering wGroups wFetch ("WORLD") wResult (by rfl)

/-- C8: when the lowercased group name is not a key of the configured
table, `fetch_group` raises the typed unknown-group error whose message
lists the valid group names, and never returns a (possibly empty) group. -/
theorem c8_unknown_group (groups : List (String × List String))
    (f : String → Except String (List Post)) (name : String)
    (h : pyLower name ∉ groups.map Prod.fst) :
    fetch_group groups f name
      = Except.error (FetchError.unknownGroup (unknownGroupMessage name groups))
    ∧ ∀ g : SubredditGroup, fetch_group groups f name ≠ Except.ok g := by
  have hfind : List.find? (fun kv => kv.1 == pyLower name) groups = none :=
    find?_eq_none_of_not_mem_keys groups (pyLower name) h
  constructor
  · unfold fetch_group
    rw [hfind]
  · intro g hg
    unfold fetch_group at hg
    rw [hfind] at hg
    exact absurd hg (by simp)

/-- Witness for C8: "Sports" is not a configured group; the typed error
carries the message listing the valid names. -/
theorem c8_unknown_group_witness :
    fetch_group wGroups wFetch ("Sports")
      = Except.error (FetchError.unknownGroup (unknownGroupMessage ("Sports") wGroups))
    ∧ ∀ g : SubredditGroup, fetch_group wGroups wFetch ("Sports") ≠ Except.ok g :=
  c8_unknown_group wGroups wFetch ("Sports") (by decide)

end SubTrends
